import Mathlib

/-!
Shallow embedding of the MultiChannelNotifier dispatch and campaign
orchestration core (Django backend). Each definition mirrors one function or
model of the Python source; theorems at the end settle the spec claims.
-/

namespace MCN

/-- Statuses of `notifications.models.NotificationStatus`. -/
inductive NotificationStatus
  | pending
  | processing
  | sent
  | delivered
  | failed
  | cancelled
  deriving DecidableEq, Repr

/-- Channels of `notifications.models.NotificationChannel`. -/
inductive Channel
  | email
  | sms
  | push
  | whatsapp
  deriving DecidableEq, Repr

/-- The database string value of a channel (`TextChoices` values). -/
def Channel.str : Channel → String
  | .email => "email"
  | .sms => "sms"
  | .push => "push"
  | .whatsapp => "whatsapp"

/-- One row of `notifications.models.Notification`, restricted to the fields
the dispatch, retry, idempotency and campaign-correlation logic reads or
writes. `campaign_id` stands for the string under the key campaign_id inside
the JSON `metadata` bag. -/
structure Notification where
  merchant : Nat
  channel : Channel
  recipient : String
  subject : String
  message : String
  campaign_id : Option String
  status : NotificationStatus
  retry_count : Nat
  max_retries : Nat
  idempotency_key : Option String
  provider : Option String
  provider_message_id : Option String
  sent_at : Option Nat
  deriving DecidableEq, Repr

/-- One row of `notifications.models.NotificationEvent`: the event type plus
the keys of `event_data` the engine actually writes (error, reason,
retry_count, provider). Absent keys are `none`. -/
structure NotificationEvent where
  event_type : String
  error : Option String
  reason : Option String
  retry_count : Option Nat
  provider : Option String
  deriving DecidableEq, Repr

/-- Event with only a type and no structured payload fields. -/
def mkEvent (ty : String) : NotificationEvent :=
  { event_type := ty, error := none, reason := none, retry_count := none, provider := none }

/-- The processing_started event of `send_notification_task`. -/
def processingEvent : NotificationEvent := mkEvent "processing_started"

/-- The cancellation event written by `pause_campaign_task`
(`event_data = dict with reason campaign_paused`). -/
def cancelledEvent : NotificationEvent :=
  { mkEvent "cancelled" with reason := some "campaign_paused" }

/-- One row of `notifications.models.Provider` (channel-scoped provider
configuration). -/
structure Provider where
  name : String
  channel : Channel
  is_active : Bool
  priority : Nat
  rate_limit_per_minute : Nat
  deriving DecidableEq, Repr

/-- The queryset `Provider.objects.filter(channel=channel, is_active=True)`. -/
def activeForChannel (providers : List Provider) (c : Channel) : List Provider :=
  providers.filter (fun p => p.channel = c ∧ p.is_active = true)

/-- `.first()` under the model Meta `ordering = ['priority']`: the first
element of minimal priority. -/
def firstByPriority (l : List Provider) : Option Provider :=
  l.foldl
    (fun acc p =>
      match acc with
      | none => some p
      | some q => if p.priority < q.priority then some p else some q)
    none

/-- Result of running a fragment of Python code: a value, or an uncaught
exception carrying its message. The source modules reference the
module-level `TextChoices` classes as nested class attributes in several
places (`Notification.NotificationStatus`, `Notification.NotificationChannel`,
`Campaign.CampaignStatus`); nothing attaches those names to the model
classes, so each such reference raises `AttributeError` at runtime, and the
embedding tracks those raises explicitly. -/
inductive PyResult (α : Type)
  | ok (a : α)
  | raised (msg : String)
  deriving DecidableEq, Repr

/-- Message of the `AttributeError` raised by
`Notification.NotificationChannel` (tasks.py:289) — `NotificationChannel` is
defined at module level in models.py, not on the `Notification` class. -/
def attrErrChannel : String :=
  "AttributeError: type object Notification has no attribute NotificationChannel"

/-- Message of the `AttributeError` raised by
`Notification.NotificationStatus` (tasks.py:51, 186, 305) — `NotificationStatus`
is defined at module level in models.py, not on the `Notification` class. -/
def attrErrStatus : String :=
  "AttributeError: type object Notification has no attribute NotificationStatus"

/-- Message of the `AttributeError` raised by `Campaign.CampaignStatus`
(campaigns/tasks.py:217, campaigns/views.py:141) — `CampaignStatus` is
defined at module level in campaigns/models.py, not on the `Campaign` class. -/
def attrErrCampaignStatus : String :=
  "AttributeError: type object Campaign has no attribute CampaignStatus"

/-- `tasks.create_provider_instance`: its first branch evaluates
`Notification.NotificationChannel.EMAIL` (tasks.py:289), which raises
`AttributeError` before any comparison or constructor runs, for every
channel and config. -/
def create_provider_instance (channel : Channel) (cfg : Provider) : PyResult Provider :=
  .raised attrErrChannel

/-- `tasks.get_provider_for_channel`: try the merchant's preferred provider
name (active row with that name and channel), else fall back to the first
active provider for the channel in priority order. Whenever an active config
row is found, the source returns `create_provider_instance(channel, config)`,
which raises `AttributeError` (its surrounding try/except only catches
`Provider.DoesNotExist`, so the raise propagates); only the no-active-provider
case returns None. `preferred` is `merchant.settings.preferred_<channel>_provider`. -/
def get_provider_for_channel (providers : List Provider) (preferred : Option String)
    (channel : Channel) : PyResult (Option Provider) :=
  let fallback : PyResult (Option Provider) :=
    match firstByPriority (activeForChannel providers channel) with
    | some cfg =>
        match create_provider_instance channel cfg with
        | .ok p => .ok (some p)
        | .raised m => .raised m
    | none => .ok none
  match preferred with
  | some pname =>
      match providers.find? (fun p => p.name = pname ∧ p.channel = channel ∧ p.is_active = true) with
      | some cfg =>
          match create_provider_instance channel cfg with
          | .ok p => .ok (some p)
          | .raised m => .raised m
      | none => fallback
  | none => fallback

/-- Outcome of the provider adapter call `provider.send(notification)`:
either a success dict, a failure dict (success False with an error string),
or a raised exception carrying a message. -/
inductive ProviderOutcome
  | ok (messageId : String)
  | errResult (msg : String)
  | errRaise (msg : String)
  deriving DecidableEq, Repr

/-- A fixed-window counter entry of the shared cache backing the rate
limiters: `none` when the key is absent, otherwise the counter value and its
absolute expiry instant. Time is a Nat of seconds. -/
abbrev CacheEntry := Option (Nat × Nat)

/-- `cache.get(key, 0)` at instant `t`: an expired or absent key reads as 0. -/
def cacheGet (st : CacheEntry) (t : Nat) : Nat :=
  match st with
  | none => 0
  | some (c, e) => if t < e then c else 0

/-- `common.throttling.ProviderRateThrottle.is_allowed`: read the counter; at
or above the limit return False without touching state; otherwise
`cache.add(key, 0, window)` (creates the key with the window TTL only when
absent or expired) then `cache.incr(key)` (with the ValueError fallback
`cache.set(key, 1, window)`), and return True. -/
def is_allowed (limit window t : Nat) (st : CacheEntry) : Bool × CacheEntry :=
  let current := cacheGet st t
  if limit ≤ current then (false, st)
  else
    match st with
    | some (c, e) => if t < e then (true, some (c + 1, e)) else (true, some (1, t + window))
    | none => (true, some (1, t + window))

/-- `notifications.utils.check_provider_rate_limit`: a pure read of the
provider-minute counter against its limit (no increment). -/
def check_provider_rate_limit (limit_per_minute t : Nat) (st : CacheEntry) : Bool :=
  cacheGet st t < limit_per_minute

/-- `notifications.utils.rate_limit_check` for the (merchant, channel) hourly
scope, reduced to its admission decision: counter below limit. -/
def rate_limit_check (limit t : Nat) (st : CacheEntry) : Bool :=
  cacheGet st t < limit

/-- Environment a single `send_notification_task` run executes in: the
provider table, the merchant's preferred provider name, what the adapter
call would return, the Celery task's own retry count (`self.request.retries`),
the shared rate-limiter counters for the (merchant, channel) and
(provider, minute) scopes, and the clock. The two counter fields are part of
the world state; whether the task reads them is exactly what claim C2 is
about. -/
structure DispatchEnv where
  providers : List Provider
  preferred : Option String
  outcome : ProviderOutcome
  task_retries : Nat
  merchant_channel_counter : CacheEntry
  provider_minute_counter : CacheEntry
  now : Nat
  deriving Repr

/-- Result of one `send_notification_task` run: the notification row as
persisted, the NotificationEvent rows appended, whether `provider.send` was
invoked, whether `update_merchant_usage` ran, the countdown of the Celery
`self.retry` call when one was issued, and the message of the exception the
outer except handler logged (tasks.py:80), `none` when no exception path ran. -/
structure DispatchResult where
  notification : Notification
  events : List NotificationEvent
  provider_called : Bool
  usage_incremented : Bool
  retry_delay : Option Nat
  raised_log : Option String
  deriving Repr

/-- The error message of the exception raised when no provider is found. -/
def noProviderMsg (c : Channel) : String :=
  "No active provider found for channel: " ++ c.str

/-- `tasks.handle_notification_failure`: its first statement evaluates
`Notification.NotificationStatus.FAILED` (tasks.py:305), which raises
`AttributeError` before the row is mutated, so no notification is ever
marked failed and no failed event is ever written. -/
def handle_notification_failure (n : Notification) (err : String) :
    PyResult (Notification × NotificationEvent) :=
  .raised attrErrStatus

/-- The Celery-level `self.retry(countdown=60 * (2 ** self.request.retries))`
issued on the exception path while `self.request.retries < self.max_retries`
(task decorator `max_retries=3`). -/
def celeryRetryDelay (task_retries : Nat) : Option Nat :=
  if task_retries < 3 then some (60 * 2 ^ task_retries) else none

/-- `tasks.send_notification_task`, one run over a notification row. The
skip check and the pending-to-processing transition use the module-level
`NotificationStatus` import and are runtime-clean; everything after them is
not. Provider selection either raises `AttributeError` inside
`create_provider_instance` (an active config exists) or returns None (the
task then raises its explicit no-provider Exception). Both raises land in
the outer except handler (tasks.py:79), which logs the message and calls
`handle_notification_failure`; that call itself raises `AttributeError` and
is swallowed by the bare `except: pass` (tasks.py:85-86); finally a
Celery-level `self.retry` with countdown `60 * 2^task_retries` is issued
while `task_retries < 3`. Net effect: the row is left at processing with
only a processing_started event, never sent and never failed, and no
provider is ever called. The arm for a successfully instantiated provider is
unreachable (see `get_provider_never_instance`); it is kept to mirror the
source text, whose every continuation (the sent assignment at tasks.py:51 or
`handle_notification_failure`) would itself raise at a
`Notification.NotificationStatus` reference. No rate-limiter state is
consulted anywhere on this path. -/
def send_notification_task (env : DispatchEnv) (n : Notification) : DispatchResult :=
  if n.status ≠ .pending then
    { notification := n, events := [], provider_called := false,
      usage_incremented := false, retry_delay := none, raised_log := none }
  else
    let n1 : Notification := { n with status := .processing }
    match get_provider_for_channel env.providers env.preferred n.channel with
    | .raised m =>
        { notification := n1, events := [processingEvent], provider_called := false,
          usage_incremented := false, retry_delay := celeryRetryDelay env.task_retries,
          raised_log := some m }
    | .ok none =>
        { notification := n1, events := [processingEvent], provider_called := false,
          usage_incremented := false, retry_delay := celeryRetryDelay env.task_retries,
          raised_log := some (noProviderMsg n.channel) }
    | .ok (some _) =>
        { notification := n1, events := [processingEvent], provider_called := true,
          usage_incremented := false, retry_delay := celeryRetryDelay env.task_retries,
          raised_log := some attrErrStatus }

/-- `tasks.retry_failed_notifications`: the queryset filter evaluates
`Notification.NotificationStatus.FAILED` (tasks.py:186), raising
`AttributeError` (and its next keyword argument would hit `models.F` with
`models` unimported, a `NameError`), so the task raises before touching any
row: nothing is ever re-armed and no retry event is ever written. -/
def retry_failed_notifications (db : List Notification) :
    PyResult (List Notification × List NotificationEvent) :=
  .raised attrErrStatus

/-- The request body accepted by `SendNotificationSerializer` (idempotency
key optional; a present key is a validated non-blank string). -/
structure SendRequest where
  channel : Channel
  recipient : String
  subject : String
  message : String
  campaign_id : Option String
  idempotency_key : Option String
  deriving DecidableEq, Repr

/-- The row `views.send_notification` creates for a merchant from a request:
fresh pending notification, `retry_count 0`, model default `max_retries 3`. -/
def mkNotification (m : Nat) (r : SendRequest) : Notification :=
  { merchant := m, channel := r.channel, recipient := r.recipient,
    subject := r.subject, message := r.message, campaign_id := r.campaign_id,
    status := .pending, retry_count := 0, max_retries := 3,
    idempotency_key := r.idempotency_key, provider := none,
    provider_message_id := none, sent_at := none }

/-- The idempotency lookup of `SendNotificationSerializer.validate_idempotency_key`:
`Notification.objects.filter(merchant=merchant, idempotency_key=value).first()`. -/
def findByIdemKey (db : List Notification) (m : Nat) (k : String) : Option Notification :=
  (db.filter (fun n => n.merchant = m ∧ n.idempotency_key = some k)).head?

/-- What `views.send_notification` answers with: the pre-existing row
(HTTP 200, no side effect) or the freshly created one (HTTP 201). -/
inductive SendOutcome
  | existing (n : Notification)
  | created (n : Notification)
  deriving DecidableEq, Repr

/-- `views.send_notification` (sendImmediate): when the request carries an
idempotency key and a row for (merchant, key) already exists, return that
row's data and change nothing; otherwise create and enqueue a new row. -/
def send_notification (db : List Notification) (m : Nat) (r : SendRequest) :
    List Notification × SendOutcome :=
  match r.idempotency_key with
  | some k =>
      match findByIdemKey db m k with
      | some ex => (db, .existing ex)
      | none => (db ++ [mkNotification m r], .created (mkNotification m r))
  | none => (db ++ [mkNotification m r], .created (mkNotification m r))

/-- Statuses of `campaigns.models.CampaignStatus`. -/
inductive CampaignStatus
  | draft
  | scheduled
  | running
  | paused
  | completed
  | cancelled
  deriving DecidableEq, Repr

/-- Status choices of `campaigns.models.CampaignRecipient.status`. -/
inductive RecipStatus
  | pending
  | sent
  | delivered
  | failed
  | opted_out
  deriving DecidableEq, Repr

/-- One row of `campaigns.models.CampaignRecipient` as the metrics and sync
tasks see it: the destination address, the recipient's own status column, and
the status of its linked Notification row when one exists. -/
structure CampaignRecipient where
  recipient : String
  status : RecipStatus
  linked_status : Option NotificationStatus
  deriving DecidableEq, Repr

/-- One row of `campaigns.models.Campaign`, restricted to the fields the
orchestration tasks read or write. -/
structure Campaign where
  status : CampaignStatus
  completed_at : Option Nat
  total_sent : Nat
  total_delivered : Nat
  total_failed : Nat
  total_opened : Nat
  total_clicked : Nat
  estimated_recipients : Nat
  deriving DecidableEq, Repr

/-- A child notification of a campaign as `update_campaign_metrics_task`
aggregates it: its status and the event types of its NotificationEvent rows
(for the opened and clicked counts). -/
structure CampaignNotif where
  status : NotificationStatus
  event_types : List String
  deriving DecidableEq, Repr

/-- The completion filter of `update_campaign_metrics_task`:
`campaign.recipients.filter(status__in=['sent', 'delivered', 'failed'])` —
it reads the recipient row's own status column. -/
def recipTerminal (r : CampaignRecipient) : Bool :=
  r.status = .sent ∨ r.status = .delivered ∨ r.status = .failed

/-- Outcome of one `update_campaign_metrics_task` run: the campaign row as
persisted after the task, and whether the run died on a swallowed
`AttributeError` (logged by the task's blanket except). -/
structure MetricsResult where
  campaign : Campaign
  raised : Bool
  deriving DecidableEq, Repr

/-- `campaigns.tasks.update_campaign_metrics_task`: recompute the aggregate
counters from the child notifications correlated by campaign id in metadata
(all string-literal filters, runtime-clean), then test whether the count of
recipient rows in a terminal status is at least the total recipient count
(no precondition on the campaign's current status). When that test holds,
the completion branch evaluates `Campaign.CampaignStatus.COMPLETED`
(campaigns/tasks.py:217), which raises `AttributeError`; the blanket
`except Exception` catches it before `campaign.save()` runs, so nothing — not
the status, not `completed_at`, not even the recomputed counters — is
persisted. Only when the test fails does the save at the end of the task run,
persisting the counters with the status untouched. -/
def update_campaign_metrics_task (c : Campaign)
    (notifs : List CampaignNotif) (recips : List CampaignRecipient) : MetricsResult :=
  let c1 : Campaign :=
    { c with
      total_sent := (notifs.filter (fun n => n.status = .sent ∨ n.status = .delivered)).length
      total_delivered := (notifs.filter (fun n => n.status = .delivered)).length
      total_failed := (notifs.filter (fun n => n.status = .failed)).length
      total_clicked := (notifs.filter (fun n => n.event_types.contains "clicked")).length
      total_opened := (notifs.filter (fun n => n.event_types.contains "opened")).length }
  let total_recipients := (recips.filter recipTerminal).length
  let expected_recipients := recips.length
  if expected_recipients ≤ total_recipients then
    { campaign := c, raised := true }
  else
    { campaign := c1, raised := false }

/-- The queryset filter of `pause_campaign_task`:
`Notification.objects.filter(metadata__campaign_id=str(campaign.id), status='pending')`. -/
def matchesPendingOfCampaign (cid : String) (n : Notification) : Bool :=
  n.campaign_id = some cid ∧ n.status = .pending

/-- The per-row effect of `pause_campaign_task`: a pending notification of
the campaign becomes cancelled; every other row is untouched. -/
def pauseOne (cid : String) (n : Notification) : Notification :=
  if matchesPendingOfCampaign cid n then { n with status := .cancelled } else n

/-- `campaigns.tasks.pause_campaign_task`: cancel every pending notification
correlated to the campaign, writing one cancellation event with reason
campaign_paused per cancelled row. -/
def pause_campaign_task (cid : String) (db : List Notification) :
    List Notification × List NotificationEvent :=
  (db.map (pauseOne cid),
   (db.filter (matchesPendingOfCampaign cid)).map (fun _ => cancelledEvent))

/-- `campaigns.views.pause_campaign`: its status gate evaluates
`Campaign.CampaignStatus.RUNNING` (campaigns/views.py:141), which raises
`AttributeError` for every call, whatever the campaign's status, so the
endpoint answers HTTP 500 before setting the campaign paused or queuing
`pause_campaign_task` (its only caller): as shipped, pausing mutates
nothing. A successful call would have answered the paused campaign with the
updated notification table and the cancellation events. -/
def pause_campaign (c : Campaign) (cid : String) (db : List Notification) :
    PyResult (Campaign × List Notification × List NotificationEvent) :=
  .raised attrErrCampaignStatus

/-- A recipient input row: the key-value map parsed from one CSV row or one
JSON object of `recipients_data`. -/
abbrev RecipientData := List (String × String)

/-- Python `recipient_data.get(key)`: the first value under the key, if any. -/
def dataGet (d : RecipientData) (k : String) : Option String :=
  (d.find? (fun kv => kv.1 = k)).map (fun kv => kv.2)

/-- Python `a or b` over lookup results: an empty string is falsy and falls
through to the alternative. -/
def pyOr (a b : Option String) : Option String :=
  match a with
  | some s => if s = "" then b else some s
  | none => b

/-- `CreateCampaignSerializer._extract_recipient`: the channel-appropriate
address field, tried in the source's fixed lookup order. -/
def extract_recipient (d : RecipientData) (c : Channel) : Option String :=
  match c with
  | .email => pyOr (dataGet d "email") (dataGet d "Email")
  | .sms => pyOr (dataGet d "phone") (dataGet d "Phone")
  | .push => pyOr (dataGet d "device_token") (dataGet d "Device_Token")
  | .whatsapp => pyOr (pyOr (dataGet d "whatsapp") (dataGet d "WhatsApp")) (dataGet d "phone")

/-- A CampaignRecipient row as constructed by
`CreateCampaignSerializer._process_recipients` before `bulk_create`. -/
structure CampaignRecipientRow where
  campaign : String
  recipient : String
  recipient_data : RecipientData
  deriving DecidableEq, Repr

/-- The database uniqueness constraint
`CampaignRecipient.Meta.unique_together = ['campaign', 'recipient']`: no two
rows share a (campaign, recipient address) pair. An insert batch violating it
raises IntegrityError. -/
def uniqueTogetherOK : List CampaignRecipientRow → Bool
  | [] => true
  | r :: rs =>
      (rs.all fun s => !(s.campaign == r.campaign && s.recipient == r.recipient))
        && uniqueTogetherOK rs

/-- `CreateCampaignSerializer._process_recipients`: for every input row with
a truthy extracted address, build a CampaignRecipient row (rows are appended
in input order with no deduplication), then `bulk_create` them all; when the
list is nonempty, `estimated_recipients` is set to the length of that list.
Returns the rows handed to `bulk_create` and the `estimated_recipients`
value written (`none` when the campaign row is left untouched). -/
def process_recipients (cid : String) (channel : Channel)
    (recipients : List RecipientData) : List CampaignRecipientRow × Option Nat :=
  let rows := recipients.filterMap (fun d =>
    match extract_recipient d channel with
    | some r => if r = "" then none else some ⟨cid, r, d⟩
    | none => none)
  (rows, if rows.isEmpty then none else some rows.length)

/-- `iterate_is_allowed limit window t k st`: `k` successive
`ProviderRateThrottle.is_allowed` calls for one scope key, all at instant
`t`, returning the list of admission decisions and the final counter state. -/
def iterate_is_allowed (limit window t : Nat) : Nat → CacheEntry → List Bool × CacheEntry
  | 0, st => ([], st)
  | k + 1, st =>
      let r := is_allowed limit window t st
      let rest := iterate_is_allowed limit window t k r.2
      (r.1 :: rest.1, rest.2)

/-- A single transition of one Notification row under the code paths that
can actually mutate a row at runtime: a dispatcher run
(`send_notification_task`) or a campaign-pause cancellation
(`pause_campaign_task`, runtime-clean string literals). The retry sweep and
the user-cancellation endpoint both raise `AttributeError` before mutating
anything (`retry_failed_notifications`; `views.cancel_notification` at its
`Notification.NotificationStatus.PENDING` gate), so they contribute no
transition. -/
inductive NotifStep : Notification → Notification → Prop
  | dispatch (env : DispatchEnv) (n : Notification) :
      NotifStep n (send_notification_task env n).notification
  | pauseCancel (cid : String) (n : Notification) :
      NotifStep n (pauseOne cid n)

/-- The notification rows the API surface creates: `retry_count 0` and the
model-default `max_retries 3` (no endpoint or serializer exposes either
field). -/
def apiCreated (n : Notification) : Prop :=
  n.retry_count = 0 ∧ n.max_retries = 3

/-! Concrete instances used by witnesses and counterexamples. -/

/-- An active email provider row. -/
def emailProvider : Provider :=
  { name := "smtp1", channel := .email, is_active := true, priority := 1,
    rate_limit_per_minute := 100 }

/-- A fresh pending email notification. -/
def pendingNotif : Notification :=
  { merchant := 1, channel := .email, recipient := "u@x.com", subject := "s",
    message := "m", campaign_id := none, status := .pending, retry_count := 0,
    max_retries := 3, idempotency_key := none, provider := none,
    provider_message_id := none, sent_at := none }

/-- An environment whose provider succeeds while both rate-limiter counters
sit exactly at a limit of 100 inside a live window. -/
def envThrottled : DispatchEnv :=
  { providers := [emailProvider], preferred := none, outcome := .ok "mid-1",
    task_retries := 0, merchant_channel_counter := some (100, 60),
    provider_minute_counter := some (100, 60), now := 5 }

/-- An environment whose provider call returns a failure dict. -/
def envFail : DispatchEnv :=
  { providers := [emailProvider], preferred := none,
    outcome := .errResult "connection timeout", task_retries := 0,
    merchant_channel_counter := none, provider_minute_counter := none, now := 5 }

/-- An environment whose provider call succeeds. -/
def envOk : DispatchEnv :=
  { providers := [emailProvider], preferred := none, outcome := .ok "mid-7",
    task_retries := 0, merchant_channel_counter := none,
    provider_minute_counter := none, now := 9 }

/-- An environment with an empty provider table. -/
def envNoProvider : DispatchEnv :=
  { providers := [], preferred := none, outcome := .ok "unused", task_retries := 0,
    merchant_channel_counter := none, provider_minute_counter := none, now := 5 }

/-- A send request carrying an idempotency key. -/
def reqA : SendRequest :=
  { channel := .email, recipient := "u@x.com", subject := "s", message := "m",
    campaign_id := none, idempotency_key := some "k1" }

/-- A running campaign with no accumulated metrics. -/
def runningCampaign : Campaign :=
  { status := .running, completed_at := none, total_sent := 0, total_delivered := 0,
    total_failed := 0, total_opened := 0, total_clicked := 0, estimated_recipients := 1 }

/-- The same campaign, paused. -/
def pausedCampaign : Campaign := { runningCampaign with status := .paused }

/-- A recipient row whose linked notification was sent. -/
def sentRecip : CampaignRecipient :=
  { recipient := "v@x.com", status := .sent, linked_status := some .sent }

/-- Recipient input with the same email address twice. -/
def dupRecipientInput : List RecipientData :=
  [[("email", "a@x.com")], [("email", "a@x.com")]]

/-- A pending notification correlated to campaign c1. -/
def campNotifPending (who : String) : Notification :=
  { pendingNotif with recipient := who, campaign_id := some "c1" }

/-- A sent notification correlated to campaign c1. -/
def campNotifSent : Notification :=
  { pendingNotif with recipient := "w@x.com", campaign_id := some "c1", status := .sent }

/-- A notification table with two pending rows and one sent row of campaign c1. -/
def wPauseDb : List Notification :=
  [campNotifPending "a@x.com", campNotifPending "b@x.com", campNotifSent]

end MCN

namespace MCN

/-! Helper lemmas about the dispatcher, shared by several claims. -/

/-- A non-pending notification is skipped by `send_notification_task`. -/
theorem dispatch_skip (env : DispatchEnv) (n : Notification) (h : ¬n.status = .pending) :
    send_notification_task env n =
      { notification := n, events := [], provider_called := false,
        usage_incremented := false, retry_delay := none, raised_log := none } := by
  simp [send_notification_task, h]

/-- Provider selection either finds no active provider (returning None) or
raises the `AttributeError` of `create_provider_instance`. -/
theorem get_provider_cases (providers : List Provider) (preferred : Option String)
    (c : Channel) :
    get_provider_for_channel providers preferred c = .ok none
    ∨ get_provider_for_channel providers preferred c = .raised attrErrChannel := by
  simp only [get_provider_for_channel, create_provider_instance]
  split
  · split
    · right; rfl
    · split
      · right; rfl
      · left; rfl
  · split
    · right; rfl
    · left; rfl

/-- Provider selection never yields a provider instance: the source returns
`create_provider_instance(...)` on every path that found an active config,
and that function raises before constructing anything. -/
theorem get_provider_never_instance (providers : List Provider) (preferred : Option String)
    (c : Channel) (cfg : Provider) :
    ¬get_provider_for_channel providers preferred c = .ok (some cfg) := by
  rcases get_provider_cases providers preferred c with h | h <;> rw [h] <;> simp

/-- When a channel has no active provider row, provider selection returns
None (without raising) regardless of the merchant preference. -/
theorem get_provider_none (providers : List Provider) (preferred : Option String) (c : Channel)
    (h : activeForChannel providers c = []) :
    get_provider_for_channel providers preferred c = .ok none := by
  have hfb : firstByPriority (activeForChannel providers c) = none := by rw [h]; rfl
  simp only [get_provider_for_channel, create_provider_instance]
  split
  · rename_i pname
    split
    · rename_i p hf
      exfalso
      have hmem : p ∈ providers := List.mem_of_find?_eq_some hf
      have hpred := List.find?_some hf
      simp only [Bool.and_eq_true, decide_eq_true_eq] at hpred
      have hp2 : p ∈ activeForChannel providers c := by
        unfold activeForChannel
        rw [List.mem_filter]
        refine ⟨hmem, ?_⟩
        simp [hpred.2.1, hpred.2.2]
      rw [h] at hp2
      exact List.not_mem_nil p hp2
    · rw [hfb]
  · rw [hfb]

/-- Dispatching any pending notification leaves it stuck at processing with
only a processing_started event, no provider call, no usage bump, and a
Celery-level task retry scheduled. -/
theorem dispatch_pending_stuck (env : DispatchEnv) (n : Notification)
    (hs : n.status = .pending) :
    (send_notification_task env n).notification = { n with status := .processing }
    ∧ (send_notification_task env n).events = [processingEvent]
    ∧ (send_notification_task env n).provider_called = false
    ∧ (send_notification_task env n).usage_incremented = false
    ∧ (send_notification_task env n).retry_delay = celeryRetryDelay env.task_retries := by
  rcases get_provider_cases env.providers env.preferred n.channel with h | h <;>
    simp [send_notification_task, hs, h]

/-- The dispatcher never changes retry_count. -/
theorem dispatch_retry_count (env : DispatchEnv) (n : Notification) :
    (send_notification_task env n).notification.retry_count = n.retry_count := by
  unfold send_notification_task
  split
  · rfl
  · split <;> rfl

/-- The dispatcher never changes max_retries. -/
theorem dispatch_max_retries (env : DispatchEnv) (n : Notification) :
    (send_notification_task env n).notification.max_retries = n.max_retries := by
  unfold send_notification_task
  split
  · rfl
  · split <;> rfl

/-- As shipped the dispatcher never invokes any provider adapter. -/
theorem dispatch_never_calls_provider (env : DispatchEnv) (n : Notification) :
    (send_notification_task env n).provider_called = false := by
  by_cases hs : n.status = .pending
  · rcases get_provider_cases env.providers env.preferred n.channel with h | h <;>
      simp [send_notification_task, hs, h]
  · simp [send_notification_task, hs]

/-- A dispatcher run either leaves the status alone (skip) or moves a
pending row to processing; in particular no row ever becomes sent or failed
through dispatch. -/
theorem dispatch_status_cases (env : DispatchEnv) (n : Notification) :
    (send_notification_task env n).notification.status = n.status
    ∨ (send_notification_task env n).notification.status = .processing := by
  by_cases hs : n.status = .pending
  · right
    rcases get_provider_cases env.providers env.preferred n.channel with h | h <;>
      simp [send_notification_task, hs, h]
  · left
    simp [send_notification_task, hs]

/-- When no row carries the key, the idempotency lookup finds nothing. -/
theorem findByIdemKey_none (db : List Notification) (m : Nat) (k : String)
    (h : ∀ n ∈ db, ¬(n.merchant = m ∧ n.idempotency_key = some k)) :
    findByIdemKey db m k = none := by
  unfold findByIdemKey
  have hf : db.filter (fun n => decide (n.merchant = m ∧ n.idempotency_key = some k)) = [] := by
    rw [List.filter_eq_nil_iff]
    intro a ha
    simpa using h a ha
  rw [hf]
  rfl

/-- Claim C1: once a sendImmediate call has created the Notification row for
a given (merchant, idempotency_key), a second sendImmediate call with the
same pair leaves the table unchanged (no new row) and answers with the
previously created row's data. -/
theorem sendImmediate_idempotent (db : List Notification) (m : Nat) (r : SendRequest)
    (k : String) (hk : r.idempotency_key = some k)
    (h : ∀ n ∈ db, ¬(n.merchant = m ∧ n.idempotency_key = some k)) :
    (send_notification db m r).1 = db ++ [mkNotification m r]
    ∧ (send_notification db m r).2 = .created (mkNotification m r)
    ∧ send_notification (send_notification db m r).1 m r
        = ((send_notification db m r).1, .existing (mkNotification m r)) := by
  have h0 : findByIdemKey db m k = none := findByIdemKey_none db m k h
  have hfirst : send_notification db m r = (db ++ [mkNotification m r], .created (mkNotification m r)) := by
    simp only [send_notification, hk, h0]
  have hmkmatch : decide ((mkNotification m r).merchant = m ∧ (mkNotification m r).idempotency_key = some k) = true := by
    simp [mkNotification, hk]
  have h1 : findByIdemKey (db ++ [mkNotification m r]) m k = some (mkNotification m r) := by
    unfold findByIdemKey
    rw [List.filter_append]
    have hdb : db.filter (fun n => decide (n.merchant = m ∧ n.idempotency_key = some k)) = [] := by
      rw [List.filter_eq_nil_iff]
      intro a ha
      simpa using h a ha
    rw [hdb, List.nil_append, List.filter_cons, hmkmatch]
    rfl
  refine ⟨by rw [hfirst], by rw [hfirst], ?_⟩
  rw [hfirst]
  simp only [send_notification, hk, h1]

/-- Claim C1 witness: with an empty table, the first call creates the row and
the second call with the same key returns it without creating anything. -/
theorem sendImmediate_idempotent_witness :
    (send_notification [] 1 reqA).1 = [] ++ [mkNotification 1 reqA]
    ∧ (send_notification [] 1 reqA).2 = .created (mkNotification 1 reqA)
    ∧ send_notification (send_notification [] 1 reqA).1 1 reqA
        = ((send_notification [] 1 reqA).1, .existing (mkNotification 1 reqA)) :=
  sendImmediate_idempotent [] 1 reqA "k1" rfl (by simp)

/-- Claim C2 counterexample: in this state both rate-limit checks reject —
the (merchant, channel) and the (provider, minute) counters sit at their
limit of 100 inside a live window — yet dispatching a pending notification
does not return it to pending: the row is moved to processing and stuck
there (provider instantiation raises AttributeError, the failure handler
raises too and is swallowed), so the claimed throttle transition back to
pending does not exist. -/
theorem dispatch_throttle_reject_cex :
    check_provider_rate_limit 100 envThrottled.now envThrottled.provider_minute_counter = false
    ∧ rate_limit_check 100 envThrottled.now envThrottled.merchant_channel_counter = false
    ∧ (send_notification_task envThrottled pendingNotif).notification.status = .processing
    ∧ ¬(send_notification_task envThrottled pendingNotif).notification.status = .pending
    ∧ (send_notification_task envThrottled pendingNotif).provider_called = false := by
  decide

/-- Claim C2 amended: the dispatcher consults no rate limiter — its result
is identical for every state of the (merchant, channel) and
(provider, minute) counters — and no throttle path back to pending exists:
a pending notification is moved to processing and left stuck there with
retry_count unchanged, no provider call, and only a Celery task retry
scheduled. -/
theorem dispatch_ignores_rate_limiter (env : DispatchEnv) (mc pc : CacheEntry)
    (n : Notification) :
    send_notification_task
        { env with merchant_channel_counter := mc, provider_minute_counter := pc } n
      = send_notification_task env n
    ∧ (n.status = .pending →
        (send_notification_task env n).notification = { n with status := .processing }
        ∧ ¬(send_notification_task env n).notification.status = .pending
        ∧ (send_notification_task env n).notification.retry_count = n.retry_count
        ∧ (send_notification_task env n).provider_called = false
        ∧ (send_notification_task env n).retry_delay = celeryRetryDelay env.task_retries) := by
  refine ⟨rfl, fun hs => ?_⟩
  obtain ⟨h1, h2, h3, h4, h5⟩ := dispatch_pending_stuck env n hs
  refine ⟨h1, ?_, dispatch_retry_count env n, h3, h5⟩
  rw [h1]
  simp

/-- Claim C2 amended, witness: concrete saturated counters do not change the
dispatch result, and the concrete pending row is left stuck at processing. -/
theorem dispatch_ignores_rate_limiter_witness :
    send_notification_task
        { envOk with
          merchant_channel_counter := some (100, 60)
          provider_minute_counter := some (100, 60) } pendingNotif
      = send_notification_task envOk pendingNotif
    ∧ (send_notification_task envOk pendingNotif).notification
        = { pendingNotif with status := .processing }
    ∧ ¬(send_notification_task envOk pendingNotif).notification.status = .pending
    ∧ (send_notification_task envOk pendingNotif).notification.retry_count
        = pendingNotif.retry_count
    ∧ (send_notification_task envOk pendingNotif).provider_called = false
    ∧ (send_notification_task envOk pendingNotif).retry_delay
        = celeryRetryDelay envOk.task_retries :=
  ⟨(dispatch_ignores_rate_limiter envOk (some (100, 60)) (some (100, 60)) pendingNotif).1,
   (dispatch_ignores_rate_limiter envOk (some (100, 60)) (some (100, 60)) pendingNotif).2 rfl⟩

/-- Claim C3 counterexample: with an active provider and a failing adapter
configured, dispatching a pending notification with retry_count 0 and
max_retries 3 does not leave it pending with retry_count 1 and a backoff:
provider instantiation raises AttributeError before any adapter call, the
swallowed failure handler raises too, and the row is left at processing
with retry_count 0; the sweep the claim relies on raises before re-arming
anything. -/
theorem retryable_failure_no_retry_cex :
    (send_notification_task envFail pendingNotif).notification.status = .processing
    ∧ (send_notification_task envFail pendingNotif).notification.retry_count = 0
    ∧ (send_notification_task envFail pendingNotif).raised_log = some attrErrChannel
    ∧ ¬((send_notification_task envFail pendingNotif).notification.status = .pending
        ∧ (send_notification_task envFail pendingNotif).notification.retry_count = 1)
    ∧ retry_failed_notifications
        [(send_notification_task envFail pendingNotif).notification] = .raised attrErrStatus := by
  decide

/-- Claim C3 amended: as shipped, no retry machinery functions. A dispatched
pending row is left at processing with retry_count unchanged; the only
backoff is the Celery task-level self.retry with countdown
60 * 2^task_retries, whose re-invocation no-ops on the non-pending row;
`handle_notification_failure` always raises before mutating, so no row is
ever marked failed; the retry sweep always raises before filtering, so
nothing is re-armed; and no dispatch ever moves a row into sent, so the
fails-twice-then-succeeds scenario cannot end at sent with retry_count 2. -/
theorem retry_machinery_dead :
    (∀ (env : DispatchEnv) (n : Notification), n.status = .pending →
        (send_notification_task env n).notification = { n with status := .processing }
        ∧ (send_notification_task env n).notification.retry_count = n.retry_count
        ∧ (send_notification_task env n).retry_delay = celeryRetryDelay env.task_retries)
    ∧ (∀ (n : Notification) (err : String),
        handle_notification_failure n err = .raised attrErrStatus)
    ∧ (∀ db : List Notification, retry_failed_notifications db = .raised attrErrStatus)
    ∧ (∀ (env : DispatchEnv) (n : Notification),
        (send_notification_task env n).notification.status = .sent → n.status = .sent) := by
  refine ⟨fun env n hs => ?_, fun n err => rfl, fun db => rfl, fun env n h => ?_⟩
  · obtain ⟨h1, _, _, _, h5⟩ := dispatch_pending_stuck env n hs
    exact ⟨h1, dispatch_retry_count env n, h5⟩
  · rcases dispatch_status_cases env n with h2 | h2
    · rw [h2] at h
      exact h
    · rw [h2] at h
      simp at h

/-- Claim C3 amended, witness: concrete instances of the four parts. -/
theorem retry_machinery_dead_witness :
    ((send_notification_task envFail pendingNotif).notification
        = { pendingNotif with status := .processing }
      ∧ (send_notification_task envFail pendingNotif).notification.retry_count
          = pendingNotif.retry_count
      ∧ (send_notification_task envFail pendingNotif).retry_delay
          = celeryRetryDelay envFail.task_retries)
    ∧ handle_notification_failure pendingNotif "connection timeout" = .raised attrErrStatus
    ∧ retry_failed_notifications [pendingNotif] = .raised attrErrStatus
    ∧ campNotifSent.status = .sent :=
  ⟨retry_machinery_dead.1 envFail pendingNotif rfl,
   retry_machinery_dead.2.1 pendingNotif "connection timeout",
   retry_machinery_dead.2.2.1 [pendingNotif],
   retry_machinery_dead.2.2.2 envOk campNotifSent (by decide)⟩

/-- Claim C4 counterexample: with no active provider the row is not
transitioned to failed and no event with reason no_provider (nor any failed
event) is recorded: the explicit no-provider Exception lands in the outer
except handler, whose own failure handler raises AttributeError and is
swallowed, so the notification is left at processing with only the
processing_started event; the logged message is the no-provider error
text. -/
theorem no_provider_event_cex :
    (send_notification_task envNoProvider pendingNotif).notification.status = .processing
    ∧ ¬(send_notification_task envNoProvider pendingNotif).notification.status = .failed
    ∧ (send_notification_task envNoProvider pendingNotif).events = [processingEvent]
    ∧ ((send_notification_task envNoProvider pendingNotif).events.all
        (fun e => !(e.reason == some "no_provider") && !(e.error == some "no_provider"))) = true
    ∧ (send_notification_task envNoProvider pendingNotif).raised_log
        = some (noProviderMsg .email)
    ∧ (send_notification_task envNoProvider pendingNotif).notification.retry_count = 0 := by
  decide

/-- Claim C4 amended: with no active provider for the channel, dispatch
makes no provider call and leaves retry_count at 0, but the notification is
not transitioned to failed: the raised no-provider Exception is logged, and
the failure handler that would mark the row failed itself raises
AttributeError and is swallowed, so the row is left at processing with only
a processing_started event (no event at all carries a no_provider reason);
only a Celery-level task retry is scheduled, and its re-invocation is a
no-op on the now non-pending row. -/
theorem no_provider_failure (env env2 : DispatchEnv) (n : Notification)
    (hs : n.status = .pending) (hrc : n.retry_count = 0)
    (hp : activeForChannel env.providers n.channel = []) :
    send_notification_task env n =
      { notification := { n with status := .processing }, events := [processingEvent],
        provider_called := false, usage_incremented := false,
        retry_delay := celeryRetryDelay env.task_retries,
        raised_log := some (noProviderMsg n.channel) }
    ∧ ({ n with status := .processing } : Notification).retry_count = 0
    ∧ send_notification_task env2 { n with status := .processing } =
        { notification := { n with status := .processing }, events := [],
          provider_called := false, usage_incremented := false, retry_delay := none,
          raised_log := none } := by
  refine ⟨?_, hrc, dispatch_skip env2 { n with status := .processing } (by simp)⟩
  simp [send_notification_task, hs, get_provider_none env.providers env.preferred n.channel hp]

/-- Claim C4 amended, witness: the concrete empty provider table. -/
theorem no_provider_failure_witness :
    send_notification_task envNoProvider pendingNotif =
      { notification := { pendingNotif with status := .processing },
        events := [processingEvent], provider_called := false,
        usage_incremented := false,
        retry_delay := celeryRetryDelay envNoProvider.task_retries,
        raised_log := some (noProviderMsg pendingNotif.channel) }
    ∧ ({ pendingNotif with status := .processing } : Notification).retry_count = 0
    ∧ send_notification_task envOk { pendingNotif with status := .processing } =
        { notification := { pendingNotif with status := .processing }, events := [],
          provider_called := false, usage_incremented := false, retry_delay := none,
          raised_log := none } :=
  no_provider_failure envNoProvider envOk pendingNotif rfl rfl rfl

/-- Claim C5: retry_count never exceeds max_retries. In the shipped code
this holds degenerately: no transition ever changes retry_count or
max_retries (the dispatcher leaves both alone, and the retry sweep raises
before touching any row), so a row created by the API (retry_count 0,
max_retries 3) keeps retry_count 0 < max_retries forever —
retry_count = max_retries is unreachable, making the once-equal clause hold
vacuously — and the dispatcher never makes a provider call for any
notification at all. -/
theorem retry_count_bounded :
    (∀ n n' : Notification, NotifStep n n' →
        n'.retry_count = n.retry_count ∧ n'.max_retries = n.max_retries)
    ∧ (∀ n n' : Notification, apiCreated n → Relation.ReflTransGen NotifStep n n' →
        n'.retry_count ≤ n'.max_retries ∧ ¬n'.retry_count = n'.max_retries)
    ∧ (∀ (env : DispatchEnv) (n : Notification),
        (send_notification_task env n).provider_called = false)
    ∧ (∀ db : List Notification, retry_failed_notifications db = .raised attrErrStatus) := by
  have hstep : ∀ n n' : Notification, NotifStep n n' →
      n'.retry_count = n.retry_count ∧ n'.max_retries = n.max_retries := by
    intro n n' h
    cases h with
    | dispatch env m => exact ⟨dispatch_retry_count env n, dispatch_max_retries env n⟩
    | pauseCancel cid m =>
        simp only [pauseOne]
        split
        · exact ⟨rfl, rfl⟩
        · exact ⟨rfl, rfl⟩
  refine ⟨hstep, ?_, dispatch_never_calls_provider, fun db => rfl⟩
  intro n n' hinit hreach
  have hkeep : n'.retry_count = n.retry_count ∧ n'.max_retries = n.max_retries := by
    induction hreach with
    | refl => exact ⟨rfl, rfl⟩
    | tail hab hbc ih =>
        obtain ⟨h1, h2⟩ := hstep _ _ hbc
        exact ⟨h1.trans ih.1, h2.trans ih.2⟩
  rw [hkeep.1, hkeep.2, hinit.1, hinit.2]
  omega

/-- Claim C5 witness: one dispatch step from a concrete API-created row,
plus concrete instances of the no-provider-call and dead-sweep parts. -/
theorem retry_count_bounded_witness :
    ((send_notification_task envOk pendingNotif).notification.retry_count
        ≤ (send_notification_task envOk pendingNotif).notification.max_retries
      ∧ ¬(send_notification_task envOk pendingNotif).notification.retry_count
          = (send_notification_task envOk pendingNotif).notification.max_retries)
    ∧ (send_notification_task envOk pendingNotif).provider_called = false
    ∧ retry_failed_notifications [pendingNotif] = .raised attrErrStatus :=
  ⟨retry_count_bounded.2.1 pendingNotif (send_notification_task envOk pendingNotif).notification
      ⟨rfl, rfl⟩ (Relation.ReflTransGen.single (NotifStep.dispatch envOk pendingNotif)),
   retry_count_bounded.2.2.1 envOk pendingNotif,
   retry_count_bounded.2.2.2 [pendingNotif]⟩

/-- A filtered list keeps its full length exactly when every element passes
the filter. -/
theorem filter_length_eq_length_iff {α : Type} (p : α → Bool) (l : List α) :
    (l.filter p).length = l.length ↔ ∀ a ∈ l, p a = true := by
  induction l with
  | nil => simp
  | cons x xs ih =>
      by_cases hx : p x = true
      · simp [List.filter_cons, hx, ih]
      · simp [List.filter_cons, hx]
        have hle := List.length_filter_le p xs
        omega

/-- Claim C6 counterexample: a running campaign whose single recipient row
is terminal (linked notification sent) satisfies the claimed completion
condition, yet metrics reconciliation does not transition it to completed:
the completion branch raises AttributeError at
Campaign.CampaignStatus.COMPLETED and the blanket except aborts before the
save, leaving the row running. -/
theorem completion_never_happens_cex :
    (∀ r ∈ [sentRecip], recipTerminal r = true)
    ∧ (update_campaign_metrics_task runningCampaign [] [sentRecip]).campaign.status = .running
    ∧ ¬(update_campaign_metrics_task runningCampaign [] [sentRecip]).campaign.status = .completed
    ∧ (update_campaign_metrics_task runningCampaign [] [sentRecip]).raised = true := by
  decide

/-- Claim C6 amended: metrics reconciliation never sets any campaign to
completed. When every recipient row is terminal (the would-be completion
case, tested on the CampaignRecipient status column with an at-least
comparison) the completion branch raises AttributeError and the blanket
except aborts before the save, so the campaign row — status, completed_at,
even the freshly recomputed counters — is persisted unchanged; otherwise
the counters are saved with the status untouched. In particular no campaign
completes while any recipient row is pending, trivially. -/
theorem campaign_never_completed (c : Campaign) (notifs : List CampaignNotif)
    (recips : List CampaignRecipient) (hc : ¬c.status = .completed) :
    ¬(update_campaign_metrics_task c notifs recips).campaign.status = .completed
    ∧ ((update_campaign_metrics_task c notifs recips).raised = true
        ↔ ∀ r ∈ recips, recipTerminal r = true)
    ∧ (update_campaign_metrics_task c notifs recips).campaign.completed_at
        = c.completed_at := by
  simp only [update_campaign_metrics_task]
  by_cases hcomp : recips.length ≤ (recips.filter recipTerminal).length
  · rw [if_pos hcomp]
    have heq : (recips.filter recipTerminal).length = recips.length :=
      le_antisymm (List.length_filter_le recipTerminal recips) hcomp
    refine ⟨hc, ?_, rfl⟩
    constructor
    · intro _
      exact (filter_length_eq_length_iff recipTerminal recips).mp heq
    · intro _
      rfl
  · rw [if_neg hcomp]
    refine ⟨hc, ?_, rfl⟩
    constructor
    · intro h
      exact absurd h (by simp)
    · intro hall
      exfalso
      have hlen := (filter_length_eq_length_iff recipTerminal recips).mpr hall
      omega

/-- Claim C6 amended, witness: a paused campaign with one terminal recipient
row stays paused; the swallowed raise is recorded. -/
theorem campaign_never_completed_witness :
    ¬(update_campaign_metrics_task pausedCampaign [] [sentRecip]).campaign.status = .completed
    ∧ ((update_campaign_metrics_task pausedCampaign [] [sentRecip]).raised = true
        ↔ ∀ r ∈ [sentRecip], recipTerminal r = true)
    ∧ (update_campaign_metrics_task pausedCampaign [] [sentRecip]).campaign.completed_at
        = pausedCampaign.completed_at :=
  campaign_never_completed pausedCampaign [] [sentRecip] (by decide)

/-- Pausing a campaign grows the set of cancelled rows by exactly the
campaign's pending rows. -/
theorem pause_cancelled_count (cid : String) (db : List Notification) :
    ((db.map (pauseOne cid)).filter (fun n => n.status = .cancelled)).length
      = (db.filter (fun n => n.status = .cancelled)).length
        + (db.filter (matchesPendingOfCampaign cid)).length := by
  induction db with
  | nil => rfl
  | cons x xs ih =>
      simp only [List.map_cons, List.filter_cons]
      by_cases hm : matchesPendingOfCampaign cid x = true
      · have hx : x.status = .pending := by
          simp only [matchesPendingOfCampaign, Bool.and_eq_true, decide_eq_true_eq] at hm
          exact hm.2
        simp [pauseOne, hm, hx, ih]
        omega
      · have hid : pauseOne cid x = x := by simp [pauseOne, hm]
        rw [hid]
        by_cases hc : x.status = .cancelled
        · simp [hc, hm, ih]
          omega
        · simp [hc, hm, ih]

/-- Claim C7 counterexample: pausing a running campaign with exactly two
pending correlated notifications cancels nothing: the endpoint raises
AttributeError at its Campaign.CampaignStatus.RUNNING status gate and
answers HTTP 500 before mutating the campaign or queuing the pause task. -/
theorem pause_endpoint_raises_cex :
    runningCampaign.status = .running
    ∧ (wPauseDb.filter (matchesPendingOfCampaign "c1")).length = 2
    ∧ pause_campaign runningCampaign "c1" wPauseDb = .raised attrErrCampaignStatus := by
  decide

/-- Claim C7 amended: as shipped the pause endpoint raises for every
campaign and cancels nothing. The `pause_campaign_task` body itself is
runtime-clean, and were it ever invoked it would cancel exactly the K
pending rows correlated to the campaign (K = that filter count), write one
cancellation event with reason campaign_paused per cancelled row, and leave
every sent, delivered or failed notification unchanged — but its only
caller is the broken endpoint, so the task is never queued. -/
theorem pause_cancels_exactly_pending (c : Campaign) (cid : String) (db : List Notification)
    (hc : c.status = .running) :
    pause_campaign c cid db = .raised attrErrCampaignStatus
    ∧ pause_campaign_task cid db =
        (db.map (pauseOne cid),
         (db.filter (matchesPendingOfCampaign cid)).map (fun _ => cancelledEvent))
    ∧ ((db.map (pauseOne cid)).filter (fun n => n.status = .cancelled)).length
        = (db.filter (fun n => n.status = .cancelled)).length
          + (db.filter (matchesPendingOfCampaign cid)).length
    ∧ ((db.filter (matchesPendingOfCampaign cid)).map (fun _ => cancelledEvent)).length
        = (db.filter (matchesPendingOfCampaign cid)).length
    ∧ (∀ e ∈ (db.filter (matchesPendingOfCampaign cid)).map (fun _ => cancelledEvent),
        e = cancelledEvent)
    ∧ (∀ n : Notification, n.status = .sent ∨ n.status = .delivered ∨ n.status = .failed →
        pauseOne cid n = n) := by
  refine ⟨rfl, rfl, pause_cancelled_count cid db, by simp, ?_, ?_⟩
  · intro e he
    rcases List.mem_map.mp he with ⟨a, _, hae⟩
    exact hae.symm
  · intro n hn
    have hno : matchesPendingOfCampaign cid n = false := by
      simp only [matchesPendingOfCampaign, Bool.and_eq_true, decide_eq_true_eq]
      rcases hn with h | h | h <;> simp [h]
    simp [pauseOne, hno]

/-- Claim C7 amended, witness: the concrete running campaign and table; the
endpoint raises, and the (never-invoked) task body would cancel exactly the
two pending rows. -/
theorem pause_cancels_exactly_pending_witness :
    pause_campaign runningCampaign "c1" wPauseDb = .raised attrErrCampaignStatus
    ∧ pause_campaign_task "c1" wPauseDb =
        (wPauseDb.map (pauseOne "c1"),
         (wPauseDb.filter (matchesPendingOfCampaign "c1")).map (fun _ => cancelledEvent))
    ∧ ((wPauseDb.map (pauseOne "c1")).filter (fun n => n.status = .cancelled)).length
        = (wPauseDb.filter (fun n => n.status = .cancelled)).length
          + (wPauseDb.filter (matchesPendingOfCampaign "c1")).length :=
  ⟨(pause_cancels_exactly_pending runningCampaign "c1" wPauseDb rfl).1,
   (pause_cancels_exactly_pending runningCampaign "c1" wPauseDb rfl).2.1,
   (pause_cancels_exactly_pending runningCampaign "c1" wPauseDb rfl).2.2.1⟩

/-- Claim C8 (code bug): recipient expansion performs no deduplication — an
input repeating the same email address produces two CampaignRecipient rows
with the same (campaign, recipient) pair, which violates the model's own
unique_together constraint (so the bulk insert raises IntegrityError
instead of collapsing), and estimated_recipients is computed as the raw row
count 2, not the unique count 1. -/
theorem process_recipients_duplicates_violation :
    ((process_recipients "c1" .email dupRecipientInput).1.map (fun r => r.recipient))
        = ["a@x.com", "a@x.com"]
    ∧ (process_recipients "c1" .email dupRecipientInput).2 = some 2
    ∧ uniqueTogetherOK (process_recipients "c1" .email dupRecipientInput).1 = false := by
  decide

/-- A call on a live counter strictly below the limit is admitted and
increments the counter, keeping the expiry. -/
theorem is_allowed_live_ok (limit window t c e : Nat) (hl : c < limit) (he : t < e) :
    is_allowed limit window t (some (c, e)) = (true, some (c + 1, e)) := by
  have hno : ¬limit ≤ c := Nat.not_le.mpr hl
  simp [is_allowed, cacheGet, he, hno]

/-- A call on a live counter at or above the limit is rejected and leaves
the state untouched. -/
theorem is_allowed_at_limit (limit window t c e : Nat) (hl : limit ≤ c) (he : t < e) :
    is_allowed limit window t (some (c, e)) = (false, some (c, e)) := by
  simp [is_allowed, cacheGet, he, hl]

/-- A call after the window expired starts a fresh window at count one. -/
theorem is_allowed_expired (limit window t c e : Nat) (hN : 0 < limit) (he : ¬t < e) :
    is_allowed limit window t (some (c, e)) = (true, some (1, t + window)) := by
  have hno : ¬limit ≤ 0 := by omega
  simp [is_allowed, cacheGet, he, hno]

/-- The first call on an absent key starts the window at count one. -/
theorem is_allowed_none (limit window t : Nat) (hN : 0 < limit) :
    is_allowed limit window t none = (true, some (1, t + window)) := by
  have hno : ¬limit ≤ 0 := by omega
  simp [is_allowed, cacheGet, hno]

/-- Repeated calls inside a live window are all admitted while the counter
has room, each incrementing it by one. -/
theorem iterate_live (limit window t : Nat) (hw : 0 < window) :
    ∀ k c, c + k ≤ limit →
      iterate_is_allowed limit window t k (some (c, t + window))
        = (List.replicate k true, some (c + k, t + window)) := by
  intro k
  induction k with
  | zero => intro c _; rfl
  | succ m ih =>
      intro c hc
      have hlive : t < t + window := by omega
      have hlt : c < limit := by omega
      simp only [iterate_is_allowed]
      rw [is_allowed_live_ok limit window t c (t + window) hlt hlive]
      rw [ih (c + 1) (by omega)]
      rw [show c + 1 + m = c + (m + 1) from by omega, List.replicate_succ]

/-- Claim C9: with limit N per window, the first N is_allowed calls in one
window all return true and leave the shared counter at N with the window's
expiry; the (N+1)-th call in the same window returns false without touching
the counter; and a call at the window's expiry instant is admitted again. -/
theorem rate_limit_window (N window t : Nat) (hN : 0 < N) (hw : 0 < window) :
    (iterate_is_allowed N window t N none).1 = List.replicate N true
    ∧ (iterate_is_allowed N window t N none).2 = some (N, t + window)
    ∧ (is_allowed N window t (some (N, t + window))).1 = false
    ∧ (is_allowed N window t (some (N, t + window))).2 = some (N, t + window)
    ∧ (is_allowed N window (t + window) (some (N, t + window))).1 = true := by
  obtain ⟨m, rfl⟩ : ∃ m, N = m + 1 := ⟨N - 1, by omega⟩
  have hrun : iterate_is_allowed (m + 1) window t (m + 1) none
      = (List.replicate (m + 1) true, some (m + 1, t + window)) := by
    simp only [iterate_is_allowed]
    rw [is_allowed_none (m + 1) window t (by omega)]
    rw [iterate_live (m + 1) window t hw m 1 (by omega)]
    rw [show 1 + m = m + 1 from by omega, List.replicate_succ]
  have hlive : t < t + window := by omega
  refine ⟨by rw [hrun], by rw [hrun], ?_, ?_, ?_⟩
  · rw [is_allowed_at_limit (m + 1) window t (m + 1) (t + window) (le_refl _) hlive]
  · rw [is_allowed_at_limit (m + 1) window t (m + 1) (t + window) (le_refl _) hlive]
  · rw [is_allowed_expired (m + 1) window (t + window) (m + 1) (t + window) (by omega) (by omega)]

/-- Claim C9 witness: limit 2, a 60-second window starting at instant 0. -/
theorem rate_limit_window_witness :
    (iterate_is_allowed 2 60 0 2 none).1 = List.replicate 2 true
    ∧ (iterate_is_allowed 2 60 0 2 none).2 = some (2, 0 + 60)
    ∧ (is_allowed 2 60 0 (some (2, 0 + 60))).1 = false
    ∧ (is_allowed 2 60 0 (some (2, 0 + 60))).2 = some (2, 0 + 60)
    ∧ (is_allowed 2 60 (0 + 60) (some (2, 0 + 60))).1 = true :=
  rate_limit_window 2 60 0 (by decide) (by decide)

/-- Claim C10 (code bug): the metrics task indeed has no status precondition
and compares terminal count to total with at-least — the completion branch
of the source plainly intends exactly what the claim reads off it — but that
branch evaluates Campaign.CampaignStatus.COMPLETED, which raises
AttributeError; the blanket except catches it before campaign.save() runs,
so for a zero-recipient (or paused, or cancelled) campaign with every
recipient row terminal, nothing is persisted at all: status and
completed_at are unchanged and the campaign is never recomputed to
completed. -/
theorem metrics_completion_branch_raises :
    (update_campaign_metrics_task pausedCampaign [] []).raised = true
    ∧ (update_campaign_metrics_task pausedCampaign [] []).campaign = pausedCampaign
    ∧ ¬(update_campaign_metrics_task pausedCampaign [] []).campaign.status = .completed
    ∧ (update_campaign_metrics_task pausedCampaign [] []).campaign.completed_at = none := by
  decide

end MCN
